import Mathlib

/-! Verification of the validation-dispatch core of the
express-standard-schema-validation package: a shallow embedding of the
Standard Schema capability check and the error formatter (src/utils.ts),
of the container table (src/constants.ts), and of the middleware produced
by createValidator (src/index.ts), together with proofs of the
behavioural properties of that core. -/

namespace ESSV

/-- Result tags of the JavaScript typeof operator, as far as the capability
check distinguishes them. Note that typeof null is tObject in JavaScript. -/
inductive JSTy where
  | tUndefined
  | tObject
  | tBoolean
  | tNumber
  | tString
  | tFunction
deriving DecidableEq

/-- JavaScript values as inspected by isStandardSchema: primitives,
functions (an opaque identity plus own properties, since a function can
carry named properties) and plain objects with their own properties in
declaration order. -/
inductive JSVal where
  | vUndefined
  | vNull
  | vBool (b : Bool)
  | vNum (n : Int)
  | vStr (s : String)
  | vFunc (id : Nat) (fields : List (String × JSVal))
  | vObj (fields : List (String × JSVal))

/-- Own-property lookup in declaration order; an absent key reads as
undefined. -/
def lookupField : List (String × JSVal) → String → JSVal
  | [], _ => JSVal.vUndefined
  | (k, v) :: rest, key => if k == key then v else lookupField rest key

/-- Property access as performed by the capability check. Primitives carry
none of the properties the check reads; the check never dereferences null
or undefined (its first guard rules them out). -/
def getProp : JSVal → String → JSVal
  | JSVal.vObj fs, k => lookupField fs k
  | JSVal.vFunc _ fs, k => lookupField fs k
  | _, _ => JSVal.vUndefined

/-- The typeof operator. -/
def typeof : JSVal → JSTy
  | JSVal.vUndefined => JSTy.tUndefined
  | JSVal.vNull => JSTy.tObject
  | JSVal.vBool _ => JSTy.tBoolean
  | JSVal.vNum _ => JSTy.tNumber
  | JSVal.vStr _ => JSTy.tString
  | JSVal.vFunc _ _ => JSTy.tFunction
  | JSVal.vObj _ => JSTy.tObject

/-- JavaScript truthiness, for the `!schema` guard of isStandardSchema. -/
def truthy : JSVal → Bool
  | JSVal.vUndefined => false
  | JSVal.vNull => false
  | JSVal.vBool b => b
  | JSVal.vNum n => !(n == 0)
  | JSVal.vStr s => !(s == "")
  | JSVal.vFunc _ _ => true
  | JSVal.vObj _ => true

/-- Test for the JavaScript value null. -/
def isNullV : JSVal → Bool
  | JSVal.vNull => true
  | _ => false

/-- Test for the JavaScript value undefined. -/
def isUndefV : JSVal → Bool
  | JSVal.vUndefined => true
  | _ => false

/-- Strict equality against the number literal 1, for std.version === 1. -/
def strictEqOne : JSVal → Bool
  | JSVal.vNum n => n == 1
  | _ => false

/-- isStandardSchema from src/utils.ts: false when the candidate is falsy
or of a type other than object or function; otherwise reads the
'~standard' property and requires it to be a non-null, non-undefined
object whose version is strictly 1, whose vendor is a string and whose
validate member is a function. -/
def isStandardSchema (schema : JSVal) : Bool :=
  if !truthy schema ||
      (!(typeof schema == JSTy.tObject) && !(typeof schema == JSTy.tFunction)) then
    false
  else
    let std := getProp schema "~standard"
    !isNullV std && !isUndefV std && (typeof std == JSTy.tObject) &&
      strictEqOne (getProp std "version") &&
      (typeof (getProp std "vendor") == JSTy.tString) &&
      (typeof (getProp std "validate") == JSTy.tFunction)

/-- Formalisation of the spec's words for the capability contract, stated
independently for comparison with the source's isStandardSchema: the
candidate is non-null, of a type that can carry named properties (object
or callable), and carries a '~standard' capability bundle — per the
glossary a nested property set, hence a non-null object — whose version is
identically 1, whose vendor is string-typed and whose validate member is
callable. -/
def specValidSchema (c : JSVal) : Bool :=
  !isNullV c && ((typeof c == JSTy.tObject) || (typeof c == JSTy.tFunction)) &&
    (let std := getProp c "~standard"
     (typeof std == JSTy.tObject) && !isNullV std &&
       strictEqOne (getProp std "version") &&
       (typeof (getProp std "vendor") == JSTy.tString) &&
       (typeof (getProp std "validate") == JSTy.tFunction))

/-- One validation issue as consumed by the core: a human-readable message
and an optional path locating the offending field. -/
structure Issue where
  message : String
  path : Option (List String)
deriving DecidableEq

/-- Array.prototype.join with a separator, as applied to the issue
messages: empty array gives the empty string, otherwise the elements with
the separator between consecutive elements and none at the ends. -/
def jsJoin (sep : String) : List String → String
  | [] => ""
  | [x] => x
  | x :: y :: rest => x ++ sep ++ jsJoin sep (y :: rest)

/-- buildErrorString from src/utils.ts: the prefix is the caller-supplied
template when that is truthy (a non-empty string), else
"Error validating <container>:"; an empty issues array yields the prefix
alone; otherwise the prefix, a space, and the issue messages joined with
". ". -/
def buildErrorString (issues : List Issue) (container : String)
    (errorStringTemplate : Option String) : String :=
  let pre :=
    match errorStringTemplate with
    | some t => if t == "" then "Error validating " ++ container ++ ":" else t
    | none => "Error validating " ++ container ++ ":"
  if issues.length == 0 then pre
  else pre ++ " " ++ jsJoin ". " (issues.map Issue.message)

/-- ExpressValidatorConfig and ExpressValidatorContainerConfig from
src/types.ts: both carry an optional passError and an optional statusCode
(undefined when absent). -/
structure ValidatorCfg where
  passError : Option Bool
  statusCode : Option Nat
deriving DecidableEq

/-- JavaScript truthiness of an optional boolean: undefined and false are
falsy. -/
def optTruthy : Option Bool → Bool
  | some b => b
  | none => false

/-- JavaScript a || d for an optional status code a: undefined and 0 are
falsy and fall through to d. -/
def jsOrStatus : Option Nat → Nat → Nat
  | some n, d => if n == 0 then d else n
  | none, d => d

/-- The status-code resolution opts.statusCode || cfg.statusCode ||
fallback used on every failure path of createValidator. -/
def effectiveStatus (optsSC cfgSC : Option Nat) (fallback : Nat) : Nat :=
  jsOrStatus optsSC (jsOrStatus cfgSC fallback)

/-- The container table from src/constants.ts: for each inbound container
name, the request property receiving the pre-validation snapshot. -/
def containers : List (String × String) :=
  [("query", "originalQuery"),
   ("body", "originalBody"),
   ("headers", "originalHeaders"),
   ("params", "originalParams"),
   ("fields", "originalFields")]

/-- Values stored in the fields of request-container objects: primitives
or references to other request-level objects, so that a shallow copy of a
container shares the references held in its fields. -/
inductive CVal where
  | cStr (s : String)
  | cNum (n : Int)
  | cBool (b : Bool)
  | cNull
  | cUndef
  | cRef (a : Nat)
deriving DecidableEq

/-- The request-level object store: the next fresh address and the
allocated objects as pairs of address and own fields. Object identity is
the address. -/
structure Heap where
  next : Nat
  objs : List (Nat × List (String × CVal))
deriving DecidableEq

/-- Fields of the object at an address. -/
def Heap.objAt (h : Heap) (a : Nat) : Option (List (String × CVal)) :=
  (h.objs.find? (fun p => p.1 == a)).map Prod.snd

/-- The slice of an express request that one container middleware touches:
the live container req[type], held as an object address, and the
original-value slot req[containers[type].storageProperty]. -/
structure ReqSt where
  container : Nat
  originalSlot : Option Nat
deriving DecidableEq

/-- Settled outcome of Promise.resolve(schema['~standard'].validate(v)):
fulfilled without an issues property (carrying the validated value, an
object address), fulfilled with an issues array, or rejected because the
validation routine threw or its promise rejected (carrying the raw error,
kept opaque). A fulfilled result with an empty issues array still selects
the failure branch, because the source tests result.issues for presence,
not for emptiness. -/
inductive VOutcome where
  | ok (vaddr : Nat)
  | fail (issues : List Issue)
  | thrown (eid : Nat)
deriving DecidableEq

/-- Field values of the error object literal handed to next() on a
validation failure: strings, numbers, the raw container reference, the
issues array, or the nested error object {message, details}. -/
inductive EField where
  | str (s : String)
  | num (n : Nat)
  | addr (a : Nat)
  | issuesArr (l : List Issue)
  | errObj (message : String) (details : List Issue)
deriving DecidableEq

/-- Argument handed to next(err): the raw rejection value forwarded by the
catch branch, or the validation-error object literal with its own fields
in source order. -/
inductive ErrPayload where
  | raw (eid : Nat)
  | fields (fs : List (String × EField))
deriving DecidableEq

/-- Terminal actions a generated container middleware can perform on a
request. -/
inductive Action where
  | nextOk
  | nextErr (e : ErrPayload)
  | resEnd (status : Nat) (body : String)
deriving DecidableEq

/-- Own-field lookup on an error-object literal. -/
def lookupEF : List (String × EField) → String → Option EField
  | [], _ => none
  | (k, v) :: rest, key => if k == key then some v else lookupEF rest key

/-- Body of the generated container middleware of createValidator
(src/index.ts) once the validate promise settles. On a result without
issues it first snapshots the raw container into the storage slot as the
spread copy of req[type], then replaces the live container with
result.value (by assignment or, for a non-writable property, by an
equivalent getter — both leave the validated value as the observable
container) and calls next(). On a result with issues it either hands the
error object literal to next(), when opts.passError || cfg.passError is
truthy, or ends the response with the effective status code and the
formatted message. On a rejection it hands the raw error to next().
Returns the request slice, the store and the actions performed. -/
def runContainerMw (cfg opts : ValidatorCfg) (ty : String) (req : ReqSt)
    (heap : Heap) (outcome : VOutcome) : ReqSt × Heap × List Action :=
  match outcome with
  | VOutcome.ok vaddr =>
    let rawFields := (heap.objAt req.container).getD []
    let snap := heap.next
    (⟨vaddr, some snap⟩, ⟨heap.next + 1, (snap, rawFields) :: heap.objs⟩,
      [Action.nextOk])
  | VOutcome.fail issues =>
    if optTruthy opts.passError || optTruthy cfg.passError then
      (req, heap,
        [Action.nextErr (ErrPayload.fields
          [("type", EField.str ty),
           ("error", EField.errObj
             (buildErrorString issues ("request " ++ ty) none) issues),
           ("value", EField.addr req.container),
           ("issues", EField.issuesArr issues),
           ("statusCode",
             EField.num (effectiveStatus opts.statusCode cfg.statusCode 400))])])
    else
      (req, heap,
        [Action.resEnd (effectiveStatus opts.statusCode cfg.statusCode 400)
          (buildErrorString issues ("request " ++ ty) none)])
  | VOutcome.thrown eid => (req, heap, [Action.nextErr (ErrPayload.raw eid)])

/-- Message of the error thrown when a schema fails the capability check at
middleware-generation time. -/
def invalidSchemaMsg : String :=
  "Invalid schema: must implement Standard Schema V1 interface."

/-- Middleware generation for one inbound container in createValidator:
the capability contract is asserted eagerly at generation time, and only
when it holds is the request-time middleware returned. -/
def containerMwGen (cfg : ValidatorCfg) (ty : String) (schema : JSVal)
    (opts : ValidatorCfg) :
    Except String (ReqSt → Heap → VOutcome → ReqSt × Heap × List Action) :=
  if isStandardSchema schema then
    Except.ok (fun req heap outcome => runContainerMw cfg opts ty req heap outcome)
  else
    Except.error invalidSchemaMsg

/-- Actions of the wrapped res.json installed by the response middleware. -/
inductive RAction where
  | emitJson (vaddr : Nat)
  | rNextErr (e : ErrPayload)
  | rResEnd (status : Nat) (body : String)
deriving DecidableEq

/-- Body of validateJson in the response middleware of createValidator once
the validate promise settles: on a result without issues it emits the
validated value through the original res.json; on a result with issues it
hands {type: 'response', issues} to next() when passError is effective,
else ends the response with status opts.statusCode || cfg.statusCode ||
500 and the message formatted for the "response json" container; a
rejection is forwarded raw to next(). -/
def runResponseValidate (cfg opts : ValidatorCfg) (outcome : VOutcome) :
    List RAction :=
  match outcome with
  | VOutcome.ok vaddr => [RAction.emitJson vaddr]
  | VOutcome.fail issues =>
    if optTruthy opts.passError || optTruthy cfg.passError then
      [RAction.rNextErr (ErrPayload.fields
        [("type", EField.str "response"),
         ("issues", EField.issuesArr issues)])]
    else
      [RAction.rResEnd (effectiveStatus opts.statusCode cfg.statusCode 500)
        (buildErrorString issues "response json" none)]
  | VOutcome.thrown eid => [RAction.rNextErr (ErrPayload.raw eid)]

/-- A concrete schema value satisfying the capability contract, used to
instantiate generation-time hypotheses. -/
def okSchema : JSVal :=
  JSVal.vObj [("~standard", JSVal.vObj
    [("version", JSVal.vNum 1),
     ("vendor", JSVal.vStr "demo"),
     ("validate", JSVal.vFunc 0 [])])]

/-- The messages part of a default-formatted error string: empty for no
issues, else a leading space and the messages joined with ". ". -/
def msgsTail (issues : List Issue) : String :=
  if issues.length == 0 then ""
  else " " ++ jsJoin ". " (issues.map Issue.message)

/-- Formalisation of the claimed formatter output read literally: every
issue message concatenated after the default prefix, each message followed
by a period. The source instead puts ". " between consecutive messages
and nothing after the last. -/
def specFormatEachPeriod (issues : List Issue) (container : String) : String :=
  "Error validating " ++ container ++ ":" ++
    String.join (issues.map (fun i => " " ++ i.message ++ "."))

/-- Formalisation of the claimed status resolution read literally: the
per-call override whenever given, else the validator-level default
whenever given, else the fallback. The source instead also skips a zero
status code, since 0 is falsy in JavaScript. -/
def specClaimedStatus (optsSC cfgSC : Option Nat) (fallback : Nat) : Nat :=
  match optsSC with
  | some n => n
  | none =>
    match cfgSC with
    | some m => m
    | none => fallback

/-- The concatenation of a separator and an element, repeated: the shape of
everything an already-joined accumulator grows by. -/
def sepTail (s : String) : List String → String
  | [] => ""
  | a :: as => s ++ a ++ sepTail s as

theorem intercalate_go_eq (s : String) :
    ∀ (as : List String) (acc : String),
      String.intercalate.go acc s as = acc ++ sepTail s as := by
  intro as
  induction as with
  | nil => intro acc; simp [String.intercalate.go, sepTail, String.append_empty]
  | cons a as ih =>
    intro acc
    simp [String.intercalate.go, sepTail, ih, String.append_assoc]

theorem jsJoin_cons_eq (s : String) :
    ∀ (as : List String) (a : String), jsJoin s (a :: as) = a ++ sepTail s as := by
  intro as
  induction as with
  | nil => intro a; simp [jsJoin, sepTail, String.append_empty]
  | cons b bs ih =>
    intro a
    simp only [jsJoin, sepTail, ih b]
    simp [String.append_assoc]

/-- The join used on issue messages agrees with the library's intercalate. -/
theorem jsJoin_eq_intercalate (s : String) :
    ∀ xs : List String, jsJoin s xs = String.intercalate s xs := by
  intro xs
  match xs with
  | [] => rfl
  | a :: as => rw [String.intercalate, intercalate_go_eq, jsJoin_cons_eq]

/-- With no template, the formatted string is the default prefix followed
by the messages part. -/
theorem buildErrorString_none_decomp (issues : List Issue) (c : String) :
    buildErrorString issues c none =
      ("Error validating " ++ c ++ ":") ++ msgsTail issues := by
  unfold buildErrorString msgsTail
  cases h : (issues.length == 0)
  · simp only [h, Bool.false_eq_true, if_false]
    rw [String.append_assoc]
  · simp only [h, if_true]
    rw [String.append_empty]

/-- With a non-empty template, the formatted string is the template
followed by the same messages part. -/
theorem buildErrorString_some_decomp (issues : List Issue) (c t : String)
    (ht : t ≠ "") :
    buildErrorString issues c (some t) = t ++ msgsTail issues := by
  unfold buildErrorString msgsTail
  have ht2 : (t == "") = false := by simpa using ht
  cases h : (issues.length == 0)
  · simp only [ht2, h, Bool.false_eq_true, if_false]
    rw [String.append_assoc]
  · simp only [ht2, h, Bool.false_eq_true, if_false, if_true]
    rw [String.append_empty]

/-- C2: the capability check of src/utils.ts returns true exactly on the
candidates the contract describes — non-null, object- or function-typed,
carrying a '~standard' bundle that is a non-null object with version
strictly 1, a string vendor and a callable validate — and for every
candidate on which it returns false, middleware generation fails with the
contract-violation error instead of returning a middleware. -/
theorem isStandardSchema_spec (s : JSVal) :
    (isStandardSchema s = specValidSchema s) ∧
      (isStandardSchema s = false →
        ∀ cfg ty opts, containerMwGen cfg ty s opts = Except.error invalidSchemaMsg) := by
  refine ⟨?_, ?_⟩
  · cases s with
    | vUndefined => rfl
    | vNull => rfl
    | vBool b => cases b <;> rfl
    | vNum n => simp [isStandardSchema, specValidSchema, truthy, typeof, isNullV]
    | vStr s => simp [isStandardSchema, specValidSchema, truthy, typeof, isNullV]
    | vFunc i fs =>
      simp only [isStandardSchema, specValidSchema, truthy, typeof, getProp, isNullV]
      cases lookupField fs "~standard" <;>
        simp [typeof, isNullV, isUndefV, strictEqOne]
    | vObj fs =>
      simp only [isStandardSchema, specValidSchema, truthy, typeof, getProp, isNullV]
      cases lookupField fs "~standard" <;>
        simp [typeof, isNullV, isUndefV, strictEqOne]
  · intro h cfg ty opts
    simp [containerMwGen, h]

/-- Witness for C2 at the concrete candidate null: the check rejects it and
generation fails with the contract-violation error. -/
theorem isStandardSchema_spec_witness :
    isStandardSchema JSVal.vNull = false ∧
      containerMwGen ⟨none, none⟩ "query" JSVal.vNull ⟨none, none⟩ =
        Except.error invalidSchemaMsg :=
  ⟨rfl, (isStandardSchema_spec JSVal.vNull).2 rfl ⟨none, none⟩ "query" ⟨none, none⟩⟩

/-- C6: when the validation routine throws or its promise rejects, the
middleware hands that exact raw error to the continuation — in either
propagation mode — without formatting it and without writing the
response, and leaves the request untouched. -/
theorem thrown_forwards_raw_error (cfg opts : ValidatorCfg) (ty : String)
    (req : ReqSt) (heap : Heap) (eid : Nat) :
    runContainerMw cfg opts ty req heap (VOutcome.thrown eid) =
      (req, heap, [Action.nextErr (ErrPayload.raw eid)]) := rfl

/-- C10: both validation-failure branches and the thrown branch leave the
request slice and the object store exactly as they were — the live
container keeps its pre-validation value and no original-value slot is
attached; only the success branch mutates the request. -/
theorem failure_leaves_request_unchanged (cfg opts : ValidatorCfg)
    (ty : String) (req : ReqSt) (heap : Heap) (issues : List Issue) (eid : Nat) :
    (runContainerMw cfg opts ty req heap (VOutcome.fail issues)).1 = req ∧
    (runContainerMw cfg opts ty req heap (VOutcome.fail issues)).2.1 = heap ∧
    (runContainerMw cfg opts ty req heap (VOutcome.thrown eid)).1 = req ∧
    (runContainerMw cfg opts ty req heap (VOutcome.thrown eid)).2.1 = heap := by
  refine ⟨?_, ?_, rfl, rfl⟩ <;>
    (simp only [runContainerMw]; split <;> rfl)

/-- C1: a middleware obtained from the container generator performs exactly
one terminal action per request — a single next() without error, a single
next(err), or a single direct response termination — whatever the outcome
of the validation routine and whatever the propagation configuration. -/
theorem generated_middleware_single_terminal_action
    (cfg : ValidatorCfg) (ty : String) (schema : JSVal) (opts : ValidatorCfg)
    (mw : ReqSt → Heap → VOutcome → ReqSt × Heap × List Action)
    (hgen : containerMwGen cfg ty schema opts = Except.ok mw) :
    ∀ req heap outcome, ∃ a, (mw req heap outcome).2.2 = [a] := by
  unfold containerMwGen at hgen
  by_cases h : isStandardSchema schema
  · rw [if_pos h] at hgen
    injection hgen with hmw
    subst hmw
    intro req heap outcome
    cases outcome with
    | ok vaddr => exact ⟨Action.nextOk, rfl⟩
    | fail issues =>
      unfold runContainerMw
      split
      · exact ⟨_, rfl⟩
      · exact ⟨_, rfl⟩
    | thrown eid => exact ⟨Action.nextErr (ErrPayload.raw eid), rfl⟩
  · rw [if_neg h] at hgen
    exact absurd hgen (by simp)

/-- Witness for C1: a valid schema generates a middleware, and on a
concrete successful request that middleware performs one terminal action. -/
theorem generated_middleware_single_terminal_action_witness :
    containerMwGen ⟨none, none⟩ "query" okSchema ⟨none, none⟩ =
      Except.ok (fun req heap outcome =>
        runContainerMw ⟨none, none⟩ ⟨none, none⟩ "query" req heap outcome) ∧
    ∃ a, (runContainerMw ⟨none, none⟩ ⟨none, none⟩ "query" ⟨0, none⟩
        ⟨1, [(0, [])]⟩ (VOutcome.ok 0)).2.2 = [a] :=
  ⟨rfl,
    generated_middleware_single_terminal_action ⟨none, none⟩ "query" okSchema
      ⟨none, none⟩ _ rfl ⟨0, none⟩ ⟨1, [(0, [])]⟩ (VOutcome.ok 0)⟩

/-- C3: on a successful inbound validation the middleware snapshots the
pre-validation container into the original-value slot as a shallow copy
and replaces the live container with the validated output: afterwards the
slot refers to a fresh object carrying exactly the raw container's fields
(structural equality with the pre-validation input), at an address
distinct from the pre-validation container and from the validated value
now live in the container. -/
theorem success_snapshots_original (cfg opts : ValidatorCfg) (ty : String)
    (req : ReqSt) (heap : Heap) (vaddr : Nat) (rawFields : List (String × CVal))
    (hraw : heap.objAt req.container = some rawFields)
    (hc : req.container < heap.next) (hv : vaddr < heap.next) :
    (runContainerMw cfg opts ty req heap (VOutcome.ok vaddr)).1.container = vaddr ∧
    (runContainerMw cfg opts ty req heap (VOutcome.ok vaddr)).1.originalSlot =
      some heap.next ∧
    ((runContainerMw cfg opts ty req heap (VOutcome.ok vaddr)).2.1).objAt heap.next =
      some rawFields ∧
    heap.next ≠ req.container ∧ heap.next ≠ vaddr := by
  refine ⟨rfl, rfl, ?_, ?_, ?_⟩
  · simp only [Heap.objAt] at hraw
    simp only [runContainerMw, Heap.objAt, List.find?, beq_self_eq_true, cond_true]
    simp [hraw]
  · omega
  · omega

/-- Witness for C3 on a concrete request: container at address 0 holding
one field, validated output at address 1, store of two objects. -/
theorem success_snapshots_original_witness :
    (⟨2, [(0, [("age", CVal.cStr "25")]), (1, [("age", CVal.cNum 25)])]⟩ : Heap).objAt 0 =
      some [("age", CVal.cStr "25")] ∧
    (0 : Nat) < 2 ∧ (1 : Nat) < 2 ∧
    ((runContainerMw ⟨none, none⟩ ⟨none, none⟩ "query" ⟨0, none⟩
        ⟨2, [(0, [("age", CVal.cStr "25")]), (1, [("age", CVal.cNum 25)])]⟩
        (VOutcome.ok 1)).1.container = 1 ∧
      (runContainerMw ⟨none, none⟩ ⟨none, none⟩ "query" ⟨0, none⟩
        ⟨2, [(0, [("age", CVal.cStr "25")]), (1, [("age", CVal.cNum 25)])]⟩
        (VOutcome.ok 1)).1.originalSlot = some 2 ∧
      ((runContainerMw ⟨none, none⟩ ⟨none, none⟩ "query" ⟨0, none⟩
        ⟨2, [(0, [("age", CVal.cStr "25")]), (1, [("age", CVal.cNum 25)])]⟩
        (VOutcome.ok 1)).2.1).objAt 2 = some [("age", CVal.cStr "25")] ∧
      (2 : Nat) ≠ 0 ∧ (2 : Nat) ≠ 1) :=
  ⟨by decide, by decide, by decide,
    success_snapshots_original ⟨none, none⟩ ⟨none, none⟩ "query" ⟨0, none⟩
      ⟨2, [(0, [("age", CVal.cStr "25")]), (1, [("age", CVal.cNum 25)])]⟩ 1
      [("age", CVal.cStr "25")] (by decide) (by decide) (by decide)⟩

/-- C4: a failed inbound validation with propagation off performs exactly
one action: it ends the response with the effective status code and the
formatted message as body — a body that begins with
"Error validating request <container>" — and never invokes the
continuation. -/
theorem fail_direct_response (cfg opts : ValidatorCfg) (ty : String)
    (req : ReqSt) (heap : Heap) (issues : List Issue)
    (hpe : (optTruthy opts.passError || optTruthy cfg.passError) = false) :
    (runContainerMw cfg opts ty req heap (VOutcome.fail issues)).2.2 =
      [Action.resEnd (effectiveStatus opts.statusCode cfg.statusCode 400)
        (buildErrorString issues ("request " ++ ty) none)] ∧
    ∃ tl, buildErrorString issues ("request " ++ ty) none =
      ("Error validating request " ++ ty) ++ tl := by
  constructor
  · simp only [runContainerMw, hpe, Bool.false_eq_true, if_false]
  · refine ⟨":" ++ msgsTail issues, ?_⟩
    rw [buildErrorString_none_decomp]
    rw [String.append_assoc, String.append_assoc, ← String.append_assoc]
    rfl

/-- Witness for C4 on a concrete failed query validation with default
configuration. -/
theorem fail_direct_response_witness :
    ((optTruthy (ValidatorCfg.mk none none).passError ||
        optTruthy (ValidatorCfg.mk none none).passError) = false) ∧
    ((runContainerMw ⟨none, none⟩ ⟨none, none⟩ "query" ⟨0, none⟩ ⟨1, [(0, [])]⟩
        (VOutcome.fail [⟨"bad", none⟩])).2.2 =
      [Action.resEnd (effectiveStatus none none 400)
        (buildErrorString [⟨"bad", none⟩] ("request " ++ "query") none)] ∧
      ∃ tl, buildErrorString [⟨"bad", none⟩] ("request " ++ "query") none =
        ("Error validating request " ++ "query") ++ tl) :=
  ⟨by decide,
    fail_direct_response ⟨none, none⟩ ⟨none, none⟩ "query" ⟨0, none⟩
      ⟨1, [(0, [])]⟩ [⟨"bad", none⟩] (by decide)⟩

/-- C5 counterexample: with propagation on, the error handed to next() for
a failed body validation is {type, error: {message, details}, value,
issues, statusCode} — the human-readable message sits nested inside the
error sub-object, and the object carries no top-level message field, so it
is not shaped {type, issues, message, value, statusCode} as claimed. -/
theorem passError_err_shape_counterexample :
    (runContainerMw ⟨some true, none⟩ ⟨none, none⟩ "body" ⟨0, none⟩
        ⟨1, [(0, [])]⟩ (VOutcome.fail [⟨"bad", none⟩])).2.2 =
      [Action.nextErr (ErrPayload.fields
        [("type", EField.str "body"),
         ("error", EField.errObj "Error validating request body: bad" [⟨"bad", none⟩]),
         ("value", EField.addr 0),
         ("issues", EField.issuesArr [⟨"bad", none⟩]),
         ("statusCode", EField.num 400)])] ∧
    lookupEF
        [("type", EField.str "body"),
         ("error", EField.errObj "Error validating request body: bad" [⟨"bad", none⟩]),
         ("value", EField.addr 0),
         ("issues", EField.issuesArr [⟨"bad", none⟩]),
         ("statusCode", EField.num 400)] "message" = none := by
  refine ⟨?_, by decide⟩
  decide

/-- C5 (amended): with propagation on, a failed inbound validation invokes
the continuation exactly once, handing it the error object
{type: container name, error: {message: combined human-readable message,
details: issues}, value: raw container, issues: non-empty issues array,
statusCode: effective status code}; the combined message appears inside
the nested error object rather than as a top-level message field, and the
response is never written directly. -/
theorem passError_err_object (cfg opts : ValidatorCfg) (ty : String)
    (req : ReqSt) (heap : Heap) (issues : List Issue)
    (hpe : (optTruthy opts.passError || optTruthy cfg.passError) = true)
    (hne : issues ≠ []) :
    (runContainerMw cfg opts ty req heap (VOutcome.fail issues)).2.2 =
      [Action.nextErr (ErrPayload.fields
        [("type", EField.str ty),
         ("error", EField.errObj
           (buildErrorString issues ("request " ++ ty) none) issues),
         ("value", EField.addr req.container),
         ("issues", EField.issuesArr issues),
         ("statusCode",
           EField.num (effectiveStatus opts.statusCode cfg.statusCode 400))])] ∧
    issues ≠ [] := by
  refine ⟨?_, hne⟩
  simp only [runContainerMw, hpe, if_true]

/-- Witness for C5 on a concrete failed body validation with passError
configured at the validator level. -/
theorem passError_err_object_witness :
    ((optTruthy (none : Option Bool) || optTruthy (some true)) = true) ∧
    (([⟨"bad", none⟩] : List Issue) ≠ []) ∧
    ((runContainerMw ⟨some true, none⟩ ⟨none, none⟩ "body" ⟨0, none⟩
        ⟨1, [(0, [])]⟩ (VOutcome.fail [⟨"bad", none⟩])).2.2 =
      [Action.nextErr (ErrPayload.fields
        [("type", EField.str "body"),
         ("error", EField.errObj
           (buildErrorString [⟨"bad", none⟩] ("request " ++ "body") none)
           [⟨"bad", none⟩]),
         ("value", EField.addr 0),
         ("issues", EField.issuesArr [⟨"bad", none⟩]),
         ("statusCode", EField.num (effectiveStatus none none 400))])] ∧
      ([⟨"bad", none⟩] : List Issue) ≠ []) :=
  ⟨by decide, by decide,
    passError_err_object ⟨some true, none⟩ ⟨none, none⟩ "body" ⟨0, none⟩
      ⟨1, [(0, [])]⟩ [⟨"bad", none⟩] (by decide) (by decide)⟩

/-- C7 counterexample: with a per-call status override of 0 and a
validator-level default of 422, the failure response is ended with status
422, while the claimed resolution — the per-call override whenever given —
demands 0: the source's JavaScript or-chain skips the zero override
because 0 is falsy. -/
theorem effective_status_counterexample :
    (runContainerMw ⟨none, some 422⟩ ⟨none, some 0⟩ "query" ⟨0, none⟩
        ⟨1, [(0, [])]⟩ (VOutcome.fail [⟨"bad", none⟩])).2.2 =
      [Action.resEnd 422 "Error validating request query: bad"] ∧
    specClaimedStatus (some 0) (some 422) 400 = 0 ∧ (422 : Nat) ≠ 0 := by
  refine ⟨?_, by decide, by decide⟩
  decide

/-- C7 (amended): on every validation failure the status used is
opts.statusCode when given and nonzero, else cfg.statusCode when given and
nonzero, else the fixed fallback — 400 on both inbound failure paths
(the response write and the statusCode field of the propagated error) and
500 on the response middleware's direct write. -/
theorem effective_status_resolution (cfg opts : ValidatorCfg) (ty : String)
    (req : ReqSt) (heap : Heap) (issues : List Issue) :
    ((optTruthy opts.passError || optTruthy cfg.passError) = false →
      (runContainerMw cfg opts ty req heap (VOutcome.fail issues)).2.2 =
        [Action.resEnd (effectiveStatus opts.statusCode cfg.statusCode 400)
          (buildErrorString issues ("request " ++ ty) none)] ∧
      runResponseValidate cfg opts (VOutcome.fail issues) =
        [RAction.rResEnd (effectiveStatus opts.statusCode cfg.statusCode 500)
          (buildErrorString issues "response json" none)]) ∧
    ((optTruthy opts.passError || optTruthy cfg.passError) = true →
      (runContainerMw cfg opts ty req heap (VOutcome.fail issues)).2.2 =
        [Action.nextErr (ErrPayload.fields
          [("type", EField.str ty),
           ("error", EField.errObj
             (buildErrorString issues ("request " ++ ty) none) issues),
           ("value", EField.addr req.container),
           ("issues", EField.issuesArr issues),
           ("statusCode",
             EField.num (effectiveStatus opts.statusCode cfg.statusCode 400))])]) ∧
    (∀ n, opts.statusCode = some n → n ≠ 0 →
      ∀ fb, effectiveStatus opts.statusCode cfg.statusCode fb = n) ∧
    ((opts.statusCode = none ∨ opts.statusCode = some 0) →
      (∀ m, cfg.statusCode = some m → m ≠ 0 →
        ∀ fb, effectiveStatus opts.statusCode cfg.statusCode fb = m) ∧
      ((cfg.statusCode = none ∨ cfg.statusCode = some 0) →
        ∀ fb, effectiveStatus opts.statusCode cfg.statusCode fb = fb)) := by
  refine ⟨?_, ?_, ?_, ?_⟩
  · intro hpe
    constructor
    · simp only [runContainerMw, hpe, Bool.false_eq_true, if_false]
    · simp only [runResponseValidate, hpe, Bool.false_eq_true, if_false]
  · intro hpe
    simp only [runContainerMw, hpe, if_true]
  · intro n hn hn0 fb
    have h0 : (n == 0) = false := by simpa using hn0
    simp [effectiveStatus, jsOrStatus, hn, h0]
  · intro ho
    constructor
    · intro m hm hm0 fb
      have h0 : (m == 0) = false := by simpa using hm0
      rcases ho with h | h <;> simp [effectiveStatus, jsOrStatus, h, hm, h0]
    · intro hcs fb
      rcases ho with h | h <;> rcases hcs with h2 | h2 <;>
        simp [effectiveStatus, jsOrStatus, h, h2]

/-- Witness for C7: a failed query validation under a validator default of
422 and no per-call override responds with the effective status, and a
nonzero per-call override of 201 wins the resolution. -/
theorem effective_status_resolution_witness :
    ((runContainerMw ⟨none, some 422⟩ ⟨none, none⟩ "query" ⟨0, none⟩
        ⟨1, [(0, [])]⟩ (VOutcome.fail [⟨"bad", none⟩])).2.2 =
      [Action.resEnd (effectiveStatus none (some 422) 400)
        (buildErrorString [⟨"bad", none⟩] ("request " ++ "query") none)]) ∧
    effectiveStatus (some 201) (some 422) 400 = 201 :=
  ⟨((effective_status_resolution ⟨none, some 422⟩ ⟨none, none⟩ "query" ⟨0, none⟩
      ⟨1, [(0, [])]⟩ [⟨"bad", none⟩]).1 (by decide)).1,
    (effective_status_resolution ⟨none, some 422⟩ ⟨none, some 201⟩ "query"
      ⟨0, none⟩ ⟨1, [(0, [])]⟩ [⟨"bad", none⟩]).2.2.1 201 rfl (by decide) 400⟩

/-- C8 counterexample: for the single issue "bad" the source formats
"Error validating query: bad" — no period after the final message — while
concatenating every message each followed by a period would give
"Error validating query: bad.". -/
theorem formatter_trailing_period_counterexample :
    buildErrorString [⟨"bad", none⟩] "query" none = "Error validating query: bad" ∧
    specFormatEachPeriod [⟨"bad", none⟩] "query" = "Error validating query: bad." ∧
    buildErrorString [⟨"bad", none⟩] "query" none ≠
      specFormatEachPeriod [⟨"bad", none⟩] "query" := by
  refine ⟨by decide, by decide, by decide⟩

/-- C8 (amended): with no template the formatter yields the bare prefix
"Error validating <container>:" for an empty issue list — no trailing
separator — and otherwise the prefix, a space, and every issue's message
in input order with ". " between consecutive messages and no period after
the last. -/
theorem formatter_output_characterisation (issues : List Issue) (c : String) :
    buildErrorString issues c none =
      (if issues.isEmpty then "Error validating " ++ c ++ ":"
       else "Error validating " ++ c ++ ": " ++
         String.intercalate ". " (issues.map Issue.message)) := by
  rw [buildErrorString_none_decomp]
  unfold msgsTail
  cases issues with
  | nil => simp [String.append_empty]
  | cons i is =>
    have hlen : ((i :: is).length == 0) = false := by simp
    simp only [hlen, Bool.false_eq_true, if_false, List.isEmpty_cons]
    rw [← jsJoin_eq_intercalate, ← String.append_assoc]
    congr 1
    rw [String.append_assoc]
    congr 1

/-- C9 counterexample: the empty override string is falsy in the source's
or-chain, so the default prefix is used instead of the override; verbatim
use of the empty override would have produced the empty output here. -/
theorem empty_template_counterexample :
    buildErrorString [] "query" (some "") = "Error validating query:" ∧
    buildErrorString [] "query" (some "") ≠ "" := by
  refine ⟨by decide, by decide⟩

/-- C9 (amended): every non-empty caller-supplied template replaces the
default "Error validating <container>:" prefix verbatim and the rest of
the output is unchanged: with the same issues, the templated call and the
default call produce the same messages part after their respective
prefixes. -/
theorem template_replaces_default (t : String) (issues : List Issue)
    (c : String) (ht : t ≠ "") :
    buildErrorString issues c (some t) = t ++ msgsTail issues ∧
    buildErrorString issues c none =
      ("Error validating " ++ c ++ ":") ++ msgsTail issues :=
  ⟨buildErrorString_some_decomp issues c t ht, buildErrorString_none_decomp issues c⟩

/-- Witness for C9 with the concrete non-empty template "Custom!". -/
theorem template_replaces_default_witness :
    ("Custom!" : String) ≠ "" ∧
    (buildErrorString [⟨"bad", none⟩] "query" (some "Custom!") =
        "Custom!" ++ msgsTail [⟨"bad", none⟩] ∧
      buildErrorString [⟨"bad", none⟩] "query" none =
        ("Error validating " ++ "query" ++ ":") ++ msgsTail [⟨"bad", none⟩]) :=
  ⟨by decide, template_replaces_default "Custom!" [⟨"bad", none⟩] "query" (by decide)⟩

end ESSV
